import Mathlib

/-!
Verification of the video-evaluation web client (Next.js front end).

The development shallowly embeds the data model and the derivation logic of
the repository:

* `src/video-transcription-app/src/app/api/transcribe/route.ts` — the
  `POST /api/transcribe` route handler that relays an analysis request to the
  FastAPI backend.
* `src/video-transcription-app/src/app/page.tsx` — the dashboard page
  (`Home` component): upload and transcribe handlers plus the on-screen
  derivations (quality, communication, technical proficiency, overall
  assessment, required-skill coverage, skill rows).
* `src/video-transcription-app/src/components/report.tsx` — the printable
  PDF report (`PDFReport`) with the same derivations.

Numbers that the source handles as JS numbers are modelled as `ℚ`;
`Math.round` is modelled by `jsRound` (floor of x + 1/2, which is what
`Math.round` computes for finite inputs).  JS `undefined`-able values are
modelled as `Option`; the JS idiom `x || 0` on a possibly-undefined number
becomes `Option.getD 0` and truthiness of an optional boolean becomes
`Option.getD false`.  String literals are copied verbatim from the source.
-/

/-- JS `Math.round`: floor of `x + 1/2` (this is the rounding rule
`Math.round` uses for all finite doubles, including the half-way cases). -/
def jsRound (x : ℚ) : ℤ := ⌊x + 1/2⌋

/-- JS truthiness of a possibly-undefined boolean (`skill.is_required`):
`undefined` and `false` are falsy. -/
def truthy (o : Option Bool) : Bool := o.getD false

/-- JS `x || 0` on a possibly-undefined number: `undefined` becomes `0`,
a present value is kept (for a present `0` the result is `0` either way). -/
def orZero (o : Option ℚ) : ℚ := o.getD 0

/-- JS truthiness of a possibly-undefined number
(`communication_skills?.rating ? … : "N/A"`): `undefined` and `0` are falsy. -/
def truthyNum (o : Option ℚ) : Bool :=
  match o with
  | none => false
  | some v => v != 0

/-- One transcript segment, from the `TranscriptionResponse` interface in
`page.tsx` (also duplicated in `report.tsx`). -/
structure TranscriptSegment where
  start_time : ℚ
  end_time : ℚ
  text : String
  confidence : ℚ
deriving DecidableEq

/-- `RequiredSkill` from `page.tsx`: one user-entered skill name. -/
structure RequiredSkill where
  name : String
deriving DecidableEq

/-- `TechnicalSkill` from `page.tsx` / `report.tsx`.  `is_required` and
`availability_status` are optional in the source (`is_required?: boolean`,
`availability_status?: string`). -/
structure TechnicalSkill where
  skill_name : String
  level : String
  rating_text : String
  rating_score : ℚ
  detailed_feedback : String
  strengths : List String
  areas_for_improvement : List String
  examples_mentioned : List String
  is_required : Option Bool
  availability_status : Option String
deriving DecidableEq

/-- `TechnicalSkills` from `page.tsx` / `report.tsx`.  The numeric scores are
optional here because both renderers defend every read used in the assessed
derivations with `|| 0`. -/
structure TechnicalSkills where
  skills : List TechnicalSkill
  overall_tech_review : String
  depth_in_core_topics : Option ℚ
  breadth_of_tech_stack : Option ℚ
  strengths_summary : String
  weaknesses_summary : String
  verdict : String
deriving DecidableEq

/-- `communication_skills` record of the feedback object. -/
structure CommunicationSkills where
  summary : String
  impact : String
  rating : Option ℚ
  language_fluency : Option ℚ
  technical_articulation : Option ℚ
deriving DecidableEq

/-- `content_analysis` record of the feedback object. -/
structure ContentAnalysis where
  clarity : String
  engagement : String
  information_density : String
  speaker_confidence : String
deriving DecidableEq

/-- `speaking_patterns` record of the feedback object. -/
structure SpeakingPatterns where
  pace : String
  filler_words : ℕ
  repetitions : ℕ
  technical_terms : List String
deriving DecidableEq

/-- One interview question entry of the feedback object. -/
structure QuestionItem where
  question : String
  answer : String
  rating : ℚ
  feedback : String
deriving DecidableEq

/-- The nested `feedback` record of the Result Model.  `technical_skills` and
`communication_skills` are optional: both renderers guard every use of them
(`x && …`, `x ? … : "N/A"`, `x?.y`), which is what the claims about graceful
degradation are about. -/
structure Feedback where
  overall_sentiment : String
  key_topics : List String
  summary : String
  recommendations : List String
  quality_score : ℚ
  word_count : ℕ
  content_analysis : ContentAnalysis
  speaking_patterns : SpeakingPatterns
  actionable_insights : List String
  questions : List QuestionItem
  communication_skills : Option CommunicationSkills
  technical_skills : Option TechnicalSkills
  interviewer_notes : String
  confidence_level : Option ℚ
  culture_fit : Option ℚ
  learning_aptitude : Option ℚ
  final_assessment : String
deriving DecidableEq

/-- The full Result Model (`TranscriptionResponse`). -/
structure TranscriptionResponse where
  transcription : List TranscriptSegment
  full_text : String
  duration : ℚ
  feedback : Feedback
deriving DecidableEq

namespace Page

/-- `getDuration` from `page.tsx` (lines 162-167): sums `end_time - start_time`
over the transcript segments with `reduce`, starting at 0; returns 0 for a
missing result. -/
def getDuration (transcriptionResult : Option TranscriptionResponse) : ℚ :=
  match transcriptionResult with
  | none => 0
  | some t =>
      t.transcription.foldl (fun acc segment => acc + (segment.end_time - segment.start_time)) 0

/-- Quality percentage of the AI Analysis Overview card in `page.tsx`
(line 493): `Math.round(feedback.quality_score * 20)`. -/
def qualityPercent (quality_score : ℚ) : ℤ := jsRound (quality_score * 20)

/-- Quality bucket label of the Content Quality row in `page.tsx`
(lines 817-826). -/
def qualityBucket (quality_score : ℚ) : String :=
  if quality_score ≥ 4 then "Excellent"
  else if quality_score ≥ 3 then "Good"
  else if quality_score ≥ 2 then "Fair"
  else "Poor"

/-- Combined technical proficiency percentage of the Tabular Assessment in
`page.tsx` (lines 667-674):
`Math.round(((depth_in_core_topics || 0) + (breadth_of_tech_stack || 0)) / 2 * 20)`. -/
def techProficiencyPercent (ts : TechnicalSkills) : ℤ :=
  jsRound (((orZero ts.depth_in_core_topics + orZero ts.breadth_of_tech_stack) / 2) * 20)

/-- Communication percentage of the Tabular Assessment in `page.tsx`
(lines 727-732): `Math.round((rating || 0) / 5 * 100)`. -/
def commPercent (cs : CommunicationSkills) : ℤ :=
  jsRound ((orZero cs.rating / 5) * 100)

/-- Communication bucket cell of the Tabular Assessment in `page.tsx`
(lines 741-764): the bucket is only rendered when `rating` is truthy,
otherwise the cell shows "N/A" (modelled as `none`). -/
def commBucketCell (cs : CommunicationSkills) : Option String :=
  if truthyNum cs.rating then
    some (if orZero cs.rating ≥ 4 then "Excellent"
          else if orZero cs.rating ≥ 3 then "Good"
          else "Fair")
  else none

/-- Overall-assessment percentage of the Tabular Assessment in `page.tsx`
(lines 860-865): `Math.round((confidence_level || 0) / 5 * 100)`. -/
def overallPercent (confidence_level : Option ℚ) : ℤ :=
  jsRound ((orZero confidence_level / 5) * 100)

/-- Overall-assessment label in `page.tsx` (line 882):
`overall_sentiment || "N/A"`. -/
def sentimentLabel (overall_sentiment : String) : String :=
  if overall_sentiment = "" then "N/A" else overall_sentiment

/-- The covered-required-skill filter used by the coverage row in `page.tsx`
(lines 909-914 / 923-927):
`s.is_required && s.availability_status !== "Not Available"`. -/
def coveredRequired (s : TechnicalSkill) : Bool :=
  truthy s.is_required && s.availability_status != some "Not Available"

/-- Required-skills coverage percentage of the Tabular Assessment in
`page.tsx` (lines 922-930): covered count divided by
`Math.max(1, requiredSkills.length)` where `requiredSkills` is the
user-entered list, times 100, rounded. -/
def coveragePercent (requiredSkills : List RequiredSkill) (ts : TechnicalSkills) : ℤ :=
  jsRound ((((ts.skills.filter coveredRequired).length : ℚ) /
      (max 1 requiredSkills.length : ℕ)) * 100)

end Page

namespace Report

/-- `getDuration` from `report.tsx` (lines 333-338); textually the same
reduction as the one in `page.tsx`. -/
def getDuration (transcriptionResult : Option TranscriptionResponse) : ℚ :=
  match transcriptionResult with
  | none => 0
  | some t =>
      t.transcription.foldl (fun acc segment => acc + (segment.end_time - segment.start_time)) 0

/-- Quality percentage of the Executive Summary in `report.tsx` (line 366):
`Math.round(feedback.quality_score * 20)`. -/
def qualityPercent (quality_score : ℚ) : ℤ := jsRound (quality_score * 20)

/-- Quality bucket label of the Content Quality row in `report.tsx`
(lines 632-638), computed on `quality_score || 0`. -/
def qualityBucket (quality_score : ℚ) : String :=
  if quality_score ≥ 4 then "Excellent"
  else if quality_score ≥ 3 then "Good"
  else if quality_score ≥ 2 then "Fair"
  else "Poor"

/-- Combined technical proficiency percentage of the Assessment Summary in
`report.tsx` (lines 522-523). -/
def techProficiencyPercent (ts : TechnicalSkills) : ℤ :=
  jsRound ((orZero ts.depth_in_core_topics + orZero ts.breadth_of_tech_stack) / 2 * 20)

/-- Communication percentage of the Assessment Summary in `report.tsx`
(line 560). -/
def commPercent (cs : CommunicationSkills) : ℤ :=
  jsRound ((orZero cs.rating / 5) * 100)

/-- Communication bucket of the Assessment Summary in `report.tsx`
(lines 578-582); rendered unconditionally once `communication_skills` is
present. -/
def commBucket (cs : CommunicationSkills) : String :=
  if orZero cs.rating ≥ 4 then "Excellent"
  else if orZero cs.rating ≥ 3 then "Good"
  else "Fair"

/-- Overall-assessment percentage of the Assessment Summary in `report.tsx`
(line 667). -/
def overallPercent (confidence_level : Option ℚ) : ℤ :=
  jsRound ((orZero confidence_level / 5) * 100)

/-- Overall-assessment label in `report.tsx` (line 685):
`overall_sentiment || "N/A"`. -/
def sentimentLabel (overall_sentiment : String) : String :=
  if overall_sentiment = "" then "N/A" else overall_sentiment

/-- The covered-required-skill filter of the coverage row in `report.tsx`
(lines 707-709 / 717-719), same predicate as the dashboard one. -/
def coveredRequired (s : TechnicalSkill) : Bool :=
  truthy s.is_required && s.availability_status != some "Not Available"

/-- Required-skills coverage percentage of the Assessment Summary in
`report.tsx` (lines 717-719): covered count divided by
`Math.max(1, skills.filter(s => s.is_required).length)` — the denominator is
the count of skills flagged required, not the user-entered list. -/
def coveragePercent (ts : TechnicalSkills) : ℤ :=
  jsRound ((((ts.skills.filter coveredRequired).length : ℚ) /
      (max 1 (ts.skills.filter (fun s => truthy s.is_required)).length : ℕ)) * 100)

end Report

/-!
### The `POST /api/transcribe` route handler

From `src/app/api/transcribe/route.ts`.  The handler destructures `videoUrl`
from the parsed JSON body, returns 400 when it is falsy, otherwise forwards
`{ video_url: videoUrl, include_enhanced_feedback: true }` to the FastAPI
backend; any thrown error or non-ok backend response becomes a 500 with a
fixed message, and on success the backend payload is returned with status
200.
-/

/-- The JSON body the client sends to `POST /api/transcribe`
(`handleTranscribe` in `page.tsx`, lines 233-236): `videoUrl` plus the names
of the user-entered required skills.  `videoUrl := none` models an absent
field. -/
structure TranscribeRequest where
  videoUrl : Option String
  requiredSkills : Option (List String)
deriving DecidableEq

/-- The JSON body the route handler forwards to the FastAPI backend
(`route.ts`, lines 22-26): exactly `video_url` and
`include_enhanced_feedback` — nothing else is serialised. -/
structure BackendRequestBody where
  video_url : String
  include_enhanced_feedback : Bool
deriving DecidableEq

/-- Outcome of the `fetch` to the FastAPI backend, as the route handler can
observe it. -/
inductive BackendOutcome where
  /-- `response.ok` with a JSON payload. -/
  | ok (data : String)
  /-- `!response.ok`: the backend answered with an error status and body. -/
  | httpError (status : ℕ) (body : String)
  /-- `fetch` (or reading the response) threw. -/
  | networkError
deriving DecidableEq

/-- Body of the route handler response: either the fixed error object
`{ error: msg }` or the backend data passed through. -/
inductive RouteBody where
  | errorMsg (msg : String)
  | data (payload : String)
deriving DecidableEq

/-- An HTTP response of the route handler: status and body. -/
structure RouteResponse where
  status : ℕ
  body : RouteBody
deriving DecidableEq

/-- JS falsiness of the destructured `videoUrl` (a string or undefined):
`undefined` and `""` are falsy. -/
def falsyUrl (u : Option String) : Bool :=
  match u with
  | none => true
  | some s => s == ""

/-- The body the route handler sends to the FastAPI backend (`route.ts`,
lines 17-27), or `none` when no backend call is made (falsy `videoUrl`).
The serialised object has exactly the fields `video_url` and
`include_enhanced_feedback`; `requiredSkills` from the incoming request is
never read. -/
def transcribeForwardedBody (req : TranscribeRequest) : Option BackendRequestBody :=
  match req.videoUrl with
  | none => none
  | some u =>
      if u = "" then none
      else some { video_url := u, include_enhanced_feedback := true }

/-- The full route handler (`route.ts`, lines 5-48).  `body := none` models a
request whose JSON parsing throws (caught by the surrounding try/catch). -/
def transcribePOST (body : Option TranscribeRequest) (outcome : BackendOutcome) :
    RouteResponse :=
  match body with
  | none => { status := 500, body := .errorMsg "Failed to process transcription" }
  | some req =>
      match req.videoUrl with
      | none => { status := 400, body := .errorMsg "Video URL is required" }
      | some u =>
          if u = "" then { status := 400, body := .errorMsg "Video URL is required" }
          else
            match outcome with
            | .ok data => { status := 200, body := .data data }
            | .httpError _ _ =>
                { status := 500, body := .errorMsg "Failed to process transcription" }
            | .networkError =>
                { status := 500, body := .errorMsg "Failed to process transcription" }

/-!
### Upload handler and page-level UI state

From the `Home` component in `page.tsx`: the pieces of `useState` that the
upload flow touches, the `handleUpload` transition, and the render guards for
the Analysis section and the error banner.
-/

/-- Outcome of the `fetch("/api/upload")` call as `handleUpload` observes
it. -/
inductive UploadOutcome where
  /-- ok response whose JSON carries `{ file: { url } }`. -/
  | success (url : String)
  /-- `!response.ok` — `handleUpload` throws `new Error("Upload failed")`. -/
  | httpFailure
  /-- `fetch` or `response.json()` threw. -/
  | transportError
deriving DecidableEq

/-- The `useState` pieces of `Home` involved in the upload flow
(`page.tsx`, lines 151-158). -/
structure UiState where
  selectedFile : Option String
  videoUrl : String
  isUploading : Bool
  error : String
deriving DecidableEq

/-- `handleUpload` (`page.tsx`, lines 192-219) run to completion on one
outcome: an early return when no file is selected; otherwise the error is
cleared, and on success `videoUrl` is set from `data.file.url` while on any
failure (non-ok status or thrown error) the catch block sets the error
message and `videoUrl` is left untouched.  `finally` resets `isUploading`. -/
def handleUpload (st : UiState) (outcome : UploadOutcome) : UiState :=
  match st.selectedFile with
  | none => st
  | some _ =>
      match outcome with
      | .success url =>
          { st with error := "", videoUrl := url, isUploading := false }
      | .httpFailure =>
          { st with error := "Failed to upload file", isUploading := false }
      | .transportError =>
          { st with error := "Failed to upload file", isUploading := false }

/-- Render guard of the Start Analysis section (`page.tsx`, line 437:
`{videoUrl && …}`): rendered only when `videoUrl` is truthy. -/
def analysisSectionRendered (st : UiState) : Bool := st.videoUrl != ""

/-- Render guard of the error banner (`page.tsx`, line 465:
`{error && …}`). -/
def errorBannerRendered (st : UiState) : Bool := st.error != ""


/-!
### Rendered skill rows and section views

Both renderers show a Skills Assessment Table over all skills and a
technical-skills section that lists the `is_required` skills first and the
remaining ("detected"/"other") skills after them.
-/

/-- The visible content of one row of the Skills Assessment Table.
`levelDisplay`/`ratingDisplay` carry the placeholder strings the source
substitutes for a skill whose `availability_status` is "Not Available";
`scoreDisplay := none` models the "-" placeholder in the Score column. -/
structure SkillRowView where
  name : String
  levelDisplay : String
  ratingDisplay : String
  scoreDisplay : Option ℚ
  requiredDisplay : Bool
deriving DecidableEq

namespace Page

/-- One row of the dashboard Skills Assessment Table (`page.tsx`,
lines 1003-1071): when `availability_status === "Not Available"` the Level
cell shows "Not Mentioned", the Rating cell "-", and the Score dots are
replaced by "-"; the Required cell shows the truthiness of
`is_required`. -/
def skillRow (skill : TechnicalSkill) : SkillRowView :=
  { name := skill.skill_name
  , levelDisplay :=
      if skill.availability_status = some "Not Available" then "Not Mentioned"
      else skill.level
  , ratingDisplay :=
      if skill.availability_status = some "Not Available" then "-"
      else skill.rating_text
  , scoreDisplay :=
      if skill.availability_status = some "Not Available" then none
      else some skill.rating_score
  , requiredDisplay := truthy skill.is_required }

/-- All rows of the dashboard Skills Assessment Table, one per skill of the
Result Model in its original order (`skills.map` at `page.tsx`,
line 1003). -/
def skillTableRows (ts : TechnicalSkills) : List SkillRowView :=
  ts.skills.map skillRow

/-- The Required Skills Evaluation group of the Technical Skills Assessment
Report (`page.tsx`, lines 1170-1172): `skills.filter(skill =>
skill.is_required)` rendered before the detected group. -/
def requiredSkillRows (ts : TechnicalSkills) : List TechnicalSkill :=
  ts.skills.filter (fun skill => truthy skill.is_required)

/-- The Detected Skills group (`page.tsx`, lines 1264-1266):
`skills.filter(skill => !skill.is_required)`. -/
def detectedSkillRows (ts : TechnicalSkills) : List TechnicalSkill :=
  ts.skills.filter (fun skill => !truthy skill.is_required)

end Page

namespace Report

/-- One row of the report Skills Assessment Table (`report.tsx`,
lines 774-885), with the same "Not Available" placeholders as the
dashboard. -/
def skillRow (skill : TechnicalSkill) : SkillRowView :=
  { name := skill.skill_name
  , levelDisplay :=
      if skill.availability_status = some "Not Available" then "Not Mentioned"
      else skill.level
  , ratingDisplay :=
      if skill.availability_status = some "Not Available" then "-"
      else skill.rating_text
  , scoreDisplay :=
      if skill.availability_status = some "Not Available" then none
      else some skill.rating_score
  , requiredDisplay := truthy skill.is_required }

/-- All rows of the report Skills Assessment Table (`report.tsx`,
line 774). -/
def skillTableRows (ts : TechnicalSkills) : List SkillRowView :=
  ts.skills.map skillRow

/-- The Required Skills group of the report Technical Skills page
(`report.tsx`, line 978): `skills.filter(s => s.is_required)`, rendered
before the other group. -/
def requiredSkillRows (ts : TechnicalSkills) : List TechnicalSkill :=
  ts.skills.filter (fun s => truthy s.is_required)

/-- The Other Skills Detected group (`report.tsx`, line 1012):
`skills.filter(s => !s.is_required)`. -/
def otherSkillRows (ts : TechnicalSkills) : List TechnicalSkill :=
  ts.skills.filter (fun s => !truthy s.is_required)

end Report

/-!
### Whole-page render views

For the graceful-degradation claim the two renderers are modelled as total
functions from the Result Model to a view record.  Every field that depends
on `technical_skills` is `Option`-valued, mirroring the guards in the
source (`x && …`, `x ? … : "N/A"`, `x?.y`): the source never reads a
property of `technical_skills` outside such a guard, which is why the
translation is total — rendering cannot throw on a Result Model without
`technical_skills`, and the guarded sections are simply omitted.
-/

/-- The technical-skills section content shared by the two render views. -/
structure TechSectionView where
  requiredRows : List TechnicalSkill
  otherRows : List TechnicalSkill
deriving DecidableEq

/-- What the dashboard (`Home` in `page.tsx`) renders from one Result Model,
restricted to the derived values the claims are about.  Each `Option` field
is `none` exactly when the source renders "N/A" or skips the section. -/
structure DashboardView where
  qualityPercent : ℤ
  qualityBucket : String
  /-- Tabular Assessment, Technical Skills row (guard at line 647). -/
  techScoreCell : Option ℤ
  /-- Communication row score (guard at line 711). -/
  commScoreCell : Option ℤ
  /-- Communication row bucket (guard at line 741, needs truthy rating). -/
  commBucketCell : Option String
  overallPercent : ℤ
  sentimentLabel : String
  /-- Required Skills Coverage row (guard at line 901 on
  `technical_skills?.skills`). -/
  coverageCell : Option ℤ
  /-- Skills Assessment Table (guard at line 974, also needs a non-empty
  skills list). -/
  skillsTable : Option (List SkillRowView)
  /-- Technical Skills Assessment Report section (guard at line 1152). -/
  techSection : Option TechSectionView
  durationSeconds : ℚ
deriving DecidableEq

/-- Dashboard rendering (`page.tsx`), as a total function of the user-entered
required-skills list and the Result Model. -/
def renderDashboard (requiredSkills : List RequiredSkill) (r : TranscriptionResponse) :
    DashboardView :=
  { qualityPercent := Page.qualityPercent r.feedback.quality_score
  , qualityBucket := Page.qualityBucket r.feedback.quality_score
  , techScoreCell := r.feedback.technical_skills.map Page.techProficiencyPercent
  , commScoreCell := r.feedback.communication_skills.map Page.commPercent
  , commBucketCell := r.feedback.communication_skills.bind Page.commBucketCell
  , overallPercent := Page.overallPercent r.feedback.confidence_level
  , sentimentLabel := Page.sentimentLabel r.feedback.overall_sentiment
  , coverageCell := r.feedback.technical_skills.map (Page.coveragePercent requiredSkills)
  , skillsTable :=
      r.feedback.technical_skills.bind fun ts =>
        if ts.skills.length > 0 then some (Page.skillTableRows ts) else none
  , techSection :=
      r.feedback.technical_skills.map fun ts =>
        { requiredRows := Page.requiredSkillRows ts
        , otherRows := Page.detectedSkillRows ts }
  , durationSeconds := Page.getDuration (some r) }

/-- What the report (`PDFReport` in `report.tsx`) renders from the same
Result Model, restricted to the same derived values. -/
structure ReportView where
  qualityPercent : ℤ
  qualityBucket : String
  /-- Assessment Summary, Technical Skills row (guard at line 503). -/
  techScoreCell : Option ℤ
  /-- Communication row score (guard at line 542). -/
  commScoreCell : Option ℤ
  /-- Communication row bucket (same guard; rendered whenever
  `communication_skills` is present). -/
  commBucketCell : Option String
  overallPercent : ℤ
  sentimentLabel : String
  /-- Required Skills Coverage row (guard at line 697). -/
  coverageCell : Option ℤ
  /-- Skills Assessment Table (guard at line 752). -/
  skillsTable : Option (List SkillRowView)
  /-- Technical Skills Assessment page section (guard at line 938). -/
  techSection : Option TechSectionView
  durationSeconds : ℚ
deriving DecidableEq

/-- Report rendering (`report.tsx`), as a total function of the Result
Model; the report has no access to the user-entered skills list. -/
def renderReport (r : TranscriptionResponse) : ReportView :=
  { qualityPercent := Report.qualityPercent r.feedback.quality_score
  , qualityBucket := Report.qualityBucket r.feedback.quality_score
  , techScoreCell := r.feedback.technical_skills.map Report.techProficiencyPercent
  , commScoreCell := r.feedback.communication_skills.map Report.commPercent
  , commBucketCell := r.feedback.communication_skills.map Report.commBucket
  , overallPercent := Report.overallPercent r.feedback.confidence_level
  , sentimentLabel := Report.sentimentLabel r.feedback.overall_sentiment
  , coverageCell := r.feedback.technical_skills.map Report.coveragePercent
  , skillsTable :=
      r.feedback.technical_skills.bind fun ts =>
        if ts.skills.length > 0 then some (Report.skillTableRows ts) else none
  , techSection :=
      r.feedback.technical_skills.map fun ts =>
        { requiredRows := Report.requiredSkillRows ts
        , otherRows := Report.otherSkillRows ts }
  , durationSeconds := Report.getDuration (some r) }

/-!
### Concrete fixtures

Small concrete values used by witnesses and counterexamples: a required
skill that was discussed, a required skill the interview never mentioned,
and Result Models built from them.
-/

/-- A required skill that was discussed ("Available"). -/
def reactSkill : TechnicalSkill :=
  { skill_name := "React", level := "Professional", rating_text := "Good"
  , rating_score := 4, detailed_feedback := "Uses hooks and context well"
  , strengths := ["component design"], areas_for_improvement := []
  , examples_mentioned := ["todo app"], is_required := some true
  , availability_status := some "Available" }

/-- A required skill the interview never touched ("Not Available"). -/
def sqlMissing : TechnicalSkill :=
  { skill_name := "SQL", level := "", rating_text := "", rating_score := 0
  , detailed_feedback := "", strengths := [], areas_for_improvement := []
  , examples_mentioned := [], is_required := some true
  , availability_status := some "Not Available" }

/-- A second required skill that was discussed. -/
def sqlAvailable : TechnicalSkill :=
  { skill_name := "SQL", level := "Intermediate", rating_text := "Satisfactory"
  , rating_score := 3, detailed_feedback := "Joins and indexing"
  , strengths := [], areas_for_improvement := [], examples_mentioned := []
  , is_required := some true, availability_status := some "Available" }

/-- The §8 coverage scenario of the spec: React required and available, SQL
required but not available. -/
def scenarioTS : TechnicalSkills :=
  { skills := [reactSkill, sqlMissing], overall_tech_review := "solid"
  , depth_in_core_topics := some 4, breadth_of_tech_stack := some 3
  , strengths_summary := "frontend", weaknesses_summary := "databases"
  , verdict := "hire" }

/-- Two skills flagged required and available, while the user typed only one
required skill: the two coverage denominators differ. -/
def divergeTS : TechnicalSkills :=
  { skills := [reactSkill, sqlAvailable], overall_tech_review := "solid"
  , depth_in_core_topics := some 4, breadth_of_tech_stack := some 3
  , strengths_summary := "frontend", weaknesses_summary := "databases"
  , verdict := "hire" }

/-- A fully populated feedback record without `technical_skills`. -/
def baseFeedback : Feedback :=
  { overall_sentiment := "positive", key_topics := ["react"], summary := "good talk"
  , recommendations := ["slow down"], quality_score := 4, word_count := 900
  , content_analysis :=
      { clarity := "high", engagement := "high"
      , information_density := "high", speaker_confidence := "high" }
  , speaking_patterns :=
      { pace := "moderate", filler_words := 3, repetitions := 1
      , technical_terms := ["api"] }
  , actionable_insights := [], questions := []
  , communication_skills := some
      { summary := "clear", impact := "good", rating := some 3
      , language_fluency := some 4, technical_articulation := some 3 }
  , technical_skills := none
  , interviewer_notes := "", confidence_level := some 4, culture_fit := some 3
  , learning_aptitude := some 4, final_assessment := "hire" }

/-- A Result Model whose feedback has no `technical_skills` record. -/
def noTechResponse : TranscriptionResponse :=
  { transcription := [{ start_time := 0, end_time := 30, text := "hello", confidence := 9/10 }]
  , full_text := "hello", duration := 30, feedback := baseFeedback }

/-- A Result Model carrying `divergeTS`. -/
def divergeResponse : TranscriptionResponse :=
  { noTechResponse with feedback := { baseFeedback with technical_skills := some divergeTS } }

/-!
## Theorems
-/

/-- C1: the claim says the `POST /api/transcribe` route forwards the user's
`requiredSkills` (with the URL) to the FastAPI backend whenever the client
supplied them.  The code does not: the body the route serialises
(`route.ts`, lines 22-26) holds exactly `video_url` and
`include_enhanced_feedback`, so the forwarded body is independent of
`requiredSkills`; in particular, for a request carrying
`requiredSkills = ["React", "SQL"]` the backend receives only the URL and
the flag.  The client does send the list to the route (`handleTranscribe`,
`page.tsx` lines 233-236), so the route silently discards it. -/
theorem transcribe_route_drops_requiredSkills :
    (∀ (u : Option String) (sk1 sk2 : Option (List String)),
        transcribeForwardedBody { videoUrl := u, requiredSkills := sk1 }
          = transcribeForwardedBody { videoUrl := u, requiredSkills := sk2 })
    ∧ transcribeForwardedBody
        { videoUrl := some "https://cdn.example.com/video.mp4"
        , requiredSkills := some ["React", "SQL"] }
        = some { video_url := "https://cdn.example.com/video.mp4"
               , include_enhanced_feedback := true } := by
  refine ⟨fun u sk1 sk2 => rfl, ?_⟩
  decide

/-- C9: the route answers 400 with body `{error: "Video URL is required"}`
for a missing or empty `videoUrl`, and 500 with body
`{error: "Failed to process transcription"}` for every non-ok backend
response (whatever its status and body) and for a thrown fetch error; the
backend status/error body never reach the caller. -/
theorem transcribePOST_error_contract :
    ∀ (sk : Option (List String)) (outcome : BackendOutcome) (s : ℕ) (b u : String),
      transcribePOST (some { videoUrl := none, requiredSkills := sk }) outcome
          = { status := 400, body := .errorMsg "Video URL is required" }
      ∧ transcribePOST (some { videoUrl := some "", requiredSkills := sk }) outcome
          = { status := 400, body := .errorMsg "Video URL is required" }
      ∧ (u ≠ "" →
          transcribePOST (some { videoUrl := some u, requiredSkills := sk }) (.httpError s b)
              = { status := 500, body := .errorMsg "Failed to process transcription" }
          ∧ transcribePOST (some { videoUrl := some u, requiredSkills := sk }) .networkError
              = { status := 500, body := .errorMsg "Failed to process transcription" }) := by
  intro sk outcome s b u
  refine ⟨rfl, by simp [transcribePOST], fun hu => ?_⟩
  constructor <;> simp [transcribePOST, hu]

/-- Witness for C9 at a concrete request and a concrete backend failure. -/
theorem transcribePOST_error_contract_witness :
    transcribePOST
        (some { videoUrl := some "https://cdn.example.com/video.mp4"
              , requiredSkills := some ["React"] })
        (.httpError 503 "busy")
      = { status := 500, body := .errorMsg "Failed to process transcription" } :=
  ((transcribePOST_error_contract (some ["React"]) .networkError 503 "busy"
      "https://cdn.example.com/video.mp4").2.2 (by decide)).1

/-- C4: in both renderers the displayed quality percentage is
`Math.round(quality_score * 20)`; the two renderers agree on it for every
Result Model, and 4 ↦ 80, 0 ↦ 0, 5 ↦ 100. -/
theorem quality_percent_times_twenty :
    (∀ q : ℚ,
        Page.qualityPercent q = jsRound (q * 20)
        ∧ Report.qualityPercent q = jsRound (q * 20))
    ∧ (∀ (u : List RequiredSkill) (r : TranscriptionResponse),
        (renderDashboard u r).qualityPercent = jsRound (r.feedback.quality_score * 20)
        ∧ (renderReport r).qualityPercent = jsRound (r.feedback.quality_score * 20))
    ∧ Page.qualityPercent 4 = 80 ∧ Page.qualityPercent 0 = 0 ∧ Page.qualityPercent 5 = 100
    ∧ Report.qualityPercent 4 = 80 ∧ Report.qualityPercent 0 = 0
    ∧ Report.qualityPercent 5 = 100 := by
  refine ⟨fun q => ⟨rfl, rfl⟩, fun u r => ⟨rfl, rfl⟩, ?_, ?_, ?_, ?_, ?_, ?_⟩ <;>
    norm_num [Page.qualityPercent, Report.qualityPercent, jsRound]

/-- C5: in both renderers the combined technical proficiency percentage of
the Tabular Assessment is
`Math.round(((depth_in_core_topics + breadth_of_tech_stack) / 2) * 20)`
with an absent component read as 0 (`|| 0`), and the two renderers agree on
it for every Result Model. -/
theorem tech_proficiency_percent_formula :
    ∀ ts : TechnicalSkills,
      Page.techProficiencyPercent ts = Report.techProficiencyPercent ts
      ∧ Page.techProficiencyPercent ts
          = jsRound (((orZero ts.depth_in_core_topics
              + orZero ts.breadth_of_tech_stack) / 2) * 20)
      ∧ Page.techProficiencyPercent { ts with depth_in_core_topics := none }
          = jsRound (((0 + orZero ts.breadth_of_tech_stack) / 2) * 20)
      ∧ Page.techProficiencyPercent { ts with breadth_of_tech_stack := none }
          = jsRound (((orZero ts.depth_in_core_topics + 0) / 2) * 20)
      ∧ ∀ (u : List RequiredSkill) (r : TranscriptionResponse),
          (renderDashboard u
              { r with feedback := { r.feedback with technical_skills := some ts } }).techScoreCell
            = some (Page.techProficiencyPercent ts)
          ∧ (renderReport
              { r with feedback := { r.feedback with technical_skills := some ts } }).techScoreCell
            = some (Report.techProficiencyPercent ts) := by
  intro ts
  exact ⟨rfl, rfl, rfl, rfl, fun u r => ⟨rfl, rfl⟩⟩

/-- Summing `end_time - start_time` with a left fold from an accumulator. -/
theorem foldl_segment_sum (l : List TranscriptSegment) (c : ℚ) :
    l.foldl (fun acc segment => acc + (segment.end_time - segment.start_time)) c
      = c + (l.map (fun seg => seg.end_time - seg.start_time)).sum := by
  induction l generalizing c with
  | nil => simp
  | cons h t ih => simp [ih, add_assoc]

/-- C10: both `getDuration` functions sum `end_time - start_time` over the
transcript segments (so gaps between segments contribute nothing), the two
functions agree on every input, and the top-level `duration` field of the
response is ignored. -/
theorem getDuration_sums_segments :
    (∀ r : Option TranscriptionResponse, Page.getDuration r = Report.getDuration r)
    ∧ (∀ t : TranscriptionResponse,
        Page.getDuration (some t)
          = (t.transcription.map (fun seg => seg.end_time - seg.start_time)).sum)
    ∧ (∀ (t : TranscriptionResponse) (d : ℚ),
        Page.getDuration (some { t with duration := d }) = Page.getDuration (some t)) := by
  refine ⟨fun r => rfl, fun t => ?_, fun t d => rfl⟩
  simpa using foldl_segment_sum t.transcription 0

/-- C6: for a Result Model whose feedback has no `technical_skills` record,
both renderers omit every technical-skills-dependent piece of output (the
Tabular Assessment score cell, the coverage row, the skills table and the
technical-skills section).  The render functions are total translations of
the source: every read of `technical_skills` in `page.tsx` / `report.tsx`
sits behind a guard (`x && …`, `x ? … : "N/A"`, `x?.y`), which is what the
match structure of `renderDashboard` / `renderReport` mirrors — rendering
terminates normally instead of throwing. -/
theorem technical_skills_absent_sections_omitted :
    ∀ (u : List RequiredSkill) (r : TranscriptionResponse),
      r.feedback.technical_skills = none →
      (renderDashboard u r).techScoreCell = none
      ∧ (renderDashboard u r).coverageCell = none
      ∧ (renderDashboard u r).skillsTable = none
      ∧ (renderDashboard u r).techSection = none
      ∧ (renderReport r).techScoreCell = none
      ∧ (renderReport r).coverageCell = none
      ∧ (renderReport r).skillsTable = none
      ∧ (renderReport r).techSection = none := by
  intro u r h
  simp [renderDashboard, renderReport, h]

/-- Witness for C6 on a concrete Result Model without `technical_skills`. -/
theorem technical_skills_absent_sections_omitted_witness :
    (renderDashboard [] noTechResponse).techSection = none
    ∧ (renderReport noTechResponse).techSection = none :=
  have h := technical_skills_absent_sections_omitted [] noTechResponse rfl
  ⟨h.2.2.2.1, h.2.2.2.2.2.2.2⟩

/-- C7: an upload attempt (a file is selected) that ends in a non-ok
response or a thrown transport error leaves `videoUrl` empty (when it was
empty before, i.e. no earlier upload succeeded), sets the error banner
message, and the Start Analysis section — guarded by `{videoUrl && …}` —
stays unrendered. -/
theorem upload_failure_keeps_analysis_unreachable :
    ∀ (st : UiState) (f : String),
      st.videoUrl = "" → st.selectedFile = some f →
      ((handleUpload st .httpFailure).videoUrl = ""
        ∧ (handleUpload st .httpFailure).error = "Failed to upload file"
        ∧ errorBannerRendered (handleUpload st .httpFailure) = true
        ∧ analysisSectionRendered (handleUpload st .httpFailure) = false)
      ∧ ((handleUpload st .transportError).videoUrl = ""
        ∧ (handleUpload st .transportError).error = "Failed to upload file"
        ∧ errorBannerRendered (handleUpload st .transportError) = true
        ∧ analysisSectionRendered (handleUpload st .transportError) = false) := by
  intro st f hurl hfile
  constructor <;>
    simp [handleUpload, hfile, hurl, errorBannerRendered, analysisSectionRendered]

/-- Witness for C7 at a concrete pre-upload state. -/
theorem upload_failure_keeps_analysis_unreachable_witness :
    analysisSectionRendered
        (handleUpload
          { selectedFile := some "interview.mp4", videoUrl := ""
          , isUploading := true, error := "" } .httpFailure) = false
    ∧ errorBannerRendered
        (handleUpload
          { selectedFile := some "interview.mp4", videoUrl := ""
          , isUploading := true, error := "" } .transportError) = true :=
  have h := upload_failure_keeps_analysis_unreachable
    { selectedFile := some "interview.mp4", videoUrl := ""
    , isUploading := true, error := "" } "interview.mp4" rfl rfl
  ⟨h.1.2.2.2, h.2.2.2.1⟩

/-- Filtering a list by a predicate and by its negation splits its length. -/
theorem length_filter_add_length_filter_not {α : Type} (p : α → Bool) (l : List α) :
    (l.filter p).length + (l.filter (fun a => !p a)).length = l.length := by
  induction l with
  | nil => rfl
  | cons h t ih =>
      by_cases hp : p h <;> simp [List.filter_cons, hp, ← ih] <;> omega

/-- C8: both renderers split the skill rows into the required group
(`filter(s => s.is_required)`, rendered first as its own section) and the
other/detected group (`filter(s => !s.is_required)`); the two renderers
build identical groups, each group keeps the relative order of the Result
Model's skills sequence (it is a sublist of it), every skill lands in
exactly one group, and the rendered technical-skills section is exactly the
pair (required group, other group). -/
theorem skill_rows_partition_preserves_order :
    ∀ ts : TechnicalSkills,
      Page.requiredSkillRows ts = Report.requiredSkillRows ts
      ∧ Page.detectedSkillRows ts = Report.otherSkillRows ts
      ∧ (Page.requiredSkillRows ts).Sublist ts.skills
      ∧ (Page.detectedSkillRows ts).Sublist ts.skills
      ∧ (Page.requiredSkillRows ts).length + (Page.detectedSkillRows ts).length
          = ts.skills.length
      ∧ (∀ s : TechnicalSkill,
          (s ∈ Page.requiredSkillRows ts ↔ s ∈ ts.skills ∧ truthy s.is_required = true)
          ∧ (s ∈ Page.detectedSkillRows ts ↔ s ∈ ts.skills ∧ truthy s.is_required = false))
      ∧ (∀ (u : List RequiredSkill) (r : TranscriptionResponse),
          (renderDashboard u
              { r with feedback := { r.feedback with technical_skills := some ts } }).techSection
            = some { requiredRows := Page.requiredSkillRows ts
                   , otherRows := Page.detectedSkillRows ts }
          ∧ (renderReport
              { r with feedback := { r.feedback with technical_skills := some ts } }).techSection
            = some { requiredRows := Page.requiredSkillRows ts
                   , otherRows := Page.detectedSkillRows ts }) := by
  intro ts
  refine ⟨rfl, rfl, List.filter_sublist _, List.filter_sublist _,
    length_filter_add_length_filter_not _ _, fun s => ⟨?_, ?_⟩, fun u r => ⟨rfl, rfl⟩⟩
  · simp [Page.requiredSkillRows, List.mem_filter]
  · simp [Page.detectedSkillRows, List.mem_filter]

/-- C3: a skill with `availability_status = "Not Available"` still gets a
row in the Skills Assessment Table of both renderers (the tables map over
all skills, so no row is dropped), its Level and Rating cells show the
placeholders "Not Mentioned" and "-" (and the score dots are replaced by
"-"), appending such a skill to the skills list raises the required-count
denominator by one when it is flagged required while never raising the
covered-count numerator; and in the §8 scenario — user skills
["React", "SQL"], React required and available, SQL required but not
available — both renderers compute 50% coverage. -/
theorem not_available_skill_semantics (s : TechnicalSkill)
    (hna : s.availability_status = some "Not Available") :
    ((Page.skillRow s).name = s.skill_name
      ∧ (Page.skillRow s).levelDisplay = "Not Mentioned"
      ∧ (Page.skillRow s).ratingDisplay = "-"
      ∧ (Page.skillRow s).scoreDisplay = none
      ∧ (Page.skillRow s).requiredDisplay = truthy s.is_required)
    ∧ Report.skillRow s = Page.skillRow s
    ∧ (∀ ts : TechnicalSkills,
        (Page.skillTableRows ts).length = ts.skills.length
        ∧ (Report.skillTableRows ts).length = ts.skills.length)
    ∧ (∀ l : List TechnicalSkill,
        ((l ++ [s]).filter (fun k => truthy k.is_required)).length
          = (l.filter (fun k => truthy k.is_required)).length
            + (if truthy s.is_required then 1 else 0)
        ∧ ((l ++ [s]).filter Page.coveredRequired).length
          = (l.filter Page.coveredRequired).length)
    ∧ Page.coveragePercent [{ name := "React" }, { name := "SQL" }] scenarioTS = 50
    ∧ Report.coveragePercent scenarioTS = 50 := by
  have hreact : Page.coveredRequired reactSkill = true := by decide
  have hsql : Page.coveredRequired sqlMissing = false := by decide
  refine ⟨⟨rfl, ?_, ?_, ?_, rfl⟩, rfl,
    fun ts => ⟨by simp [Page.skillTableRows], by simp [Report.skillTableRows]⟩,
    fun l => ⟨?_, ?_⟩, ?_, ?_⟩
  · simp [Page.skillRow, hna]
  · simp [Page.skillRow, hna]
  · simp [Page.skillRow, hna]
  · by_cases hr : truthy s.is_required = true <;>
      simp [List.filter_append, List.filter_cons, hr]
  · have hcov : Page.coveredRequired s = false := by
      simp [Page.coveredRequired, hna]
    simp [List.filter_append, List.filter_cons, hcov]
  · norm_num [Page.coveragePercent, scenarioTS, List.filter_cons, hreact, hsql, jsRound]
  · have hreact2 : Report.coveredRequired reactSkill = true := by decide
    have hsql2 : Report.coveredRequired sqlMissing = false := by decide
    have hr1 : truthy reactSkill.is_required = true := by decide
    have hr2 : truthy sqlMissing.is_required = true := by decide
    norm_num [Report.coveragePercent, scenarioTS, List.filter_cons, hreact2, hsql2,
      hr1, hr2, jsRound]

/-- Witness for C3 at the concrete "SQL, required, Not Available" skill. -/
theorem not_available_skill_semantics_witness :
    (Page.skillRow sqlMissing).levelDisplay = "Not Mentioned"
    ∧ (Page.skillRow sqlMissing).ratingDisplay = "-"
    ∧ Page.coveragePercent [{ name := "React" }, { name := "SQL" }] scenarioTS = 50
    ∧ Report.coveragePercent scenarioTS = 50 :=
  have h := not_available_skill_semantics sqlMissing rfl
  ⟨h.1.2.1, h.1.2.2.1, h.2.2.2.2.1, h.2.2.2.2.2⟩

/-- C2 counterexample: the two renderers do NOT agree on every shared
computed value.  With the user-entered list ["React"] and a Result Model
whose analysis returned two skills flagged required and available, the
dashboard coverage cell divides the 2 covered skills by the user-entered
count (max 1 1) and shows 200%, while the report divides by the count of
skills flagged required (max 1 2) and shows 100%. -/
theorem coverage_cells_diverge :
    (renderDashboard [{ name := "React" }] divergeResponse).coverageCell
      ≠ (renderReport divergeResponse).coverageCell := by
  have ha : Page.coveredRequired reactSkill = true := by decide
  have hb : Page.coveredRequired sqlAvailable = true := by decide
  have ha2 : Report.coveredRequired reactSkill = true := by decide
  have hb2 : Report.coveredRequired sqlAvailable = true := by decide
  have hq1 : truthy reactSkill.is_required = true := by decide
  have hq2 : truthy sqlAvailable.is_required = true := by decide
  have hdash :
      (renderDashboard [{ name := "React" }] divergeResponse).coverageCell = some 200 := by
    show some (Page.coveragePercent [{ name := "React" }] divergeTS) = some 200
    norm_num [Page.coveragePercent, divergeTS, List.filter_cons, ha, hb, jsRound]
  have hrep : (renderReport divergeResponse).coverageCell = some 100 := by
    show some (Report.coveragePercent divergeTS) = some 100
    norm_num [Report.coveragePercent, divergeTS, List.filter_cons, ha2, hb2,
      hq1, hq2, jsRound]
  rw [hdash, hrep]
  simp

/-- C2 (amended): for every Result Model the Dashboard and Report renderers
agree on the quality percentage and bucket, the communication percentage,
the combined technical proficiency percentage, the overall-assessment
percentage and sentiment label; when the dashboard displays a communication
bucket at all (it shows "N/A" for a missing or zero rating) the label
agrees with the report; and the required-skill coverage percentages —
whose denominators differ by construction (user-entered list length vs
count of skills flagged required) — agree exactly when those two counts
are equal. -/
theorem renderers_agree_amended :
    ∀ (q : ℚ) (cs : CommunicationSkills) (ts : TechnicalSkills)
      (c : Option ℚ) (sent : String) (u : List RequiredSkill),
      Page.qualityPercent q = Report.qualityPercent q
      ∧ Page.qualityBucket q = Report.qualityBucket q
      ∧ Page.commPercent cs = Report.commPercent cs
      ∧ (∀ b : String, Page.commBucketCell cs = some b → b = Report.commBucket cs)
      ∧ Page.techProficiencyPercent ts = Report.techProficiencyPercent ts
      ∧ Page.overallPercent c = Report.overallPercent c
      ∧ Page.sentimentLabel sent = Report.sentimentLabel sent
      ∧ (u.length = (ts.skills.filter (fun s => truthy s.is_required)).length →
          Page.coveragePercent u ts = Report.coveragePercent ts) := by
  intro q cs ts c sent u
  refine ⟨rfl, rfl, rfl, ?_, rfl, rfl, rfl, ?_⟩
  · intro b hb
    unfold Page.commBucketCell at hb
    split at hb
    · exact (Option.some.inj hb).symm
    · exact absurd hb (by simp)
  · intro hlen
    unfold Page.coveragePercent Report.coveragePercent
    have hsame : Page.coveredRequired = Report.coveredRequired := rfl
    rw [hlen, hsame]

/-- Witness for the amended C2, discharging both hypotheses at concrete
inputs: a rating of 3 whose bucket the dashboard does display, and the §8
scenario where the user count and the required-flag count are both 2. -/
theorem renderers_agree_amended_witness :
    "Good" = Report.commBucket { summary := "clear", impact := "good", rating := some 3, language_fluency := some 4, technical_articulation := some 3 }
    ∧ Page.coveragePercent [{ name := "React" }, { name := "SQL" }] scenarioTS
        = Report.coveragePercent scenarioTS :=
  have h := renderers_agree_amended 4
    { summary := "clear", impact := "good", rating := some 3, language_fluency := some 4, technical_articulation := some 3 }
    scenarioTS (some 4) "positive" [{ name := "React" }, { name := "SQL" }]
  ⟨h.2.2.2.1 "Good" (by decide), h.2.2.2.2.2.2.2 (by decide)⟩
